import Mathlib

/-!
Verification of the `kv` command-line key-value store (`src/main.rs`).

The store is a single JSON file holding a top-level object mapping string
keys to string values.  We embed the program shallowly:

* `JValue` models `serde_json::Value` (JSON numbers are modelled as `Int`;
  no claim depends on numeric contents).
* `FileState` models the observable state of the backing file: absent or
  unreadable (`missing`), readable but not syntactically valid JSON
  (`invalidJson`), or readable and parsing to a JSON value (`json v`).
* `KvError` models the error taxonomy carried through `std::io::Error`:
  read failures (`IOError`), `serde_json` syntax failures (`ParseError`),
  the explicit `ErrorKind::InvalidData` errors and `serde` deserialization
  failures (`InvalidDataError`), `ErrorKind::NotFound` (`NotFoundError`)
  and `ErrorKind::AlreadyExists` (`AlreadyExistsError`).
* The object is modelled as an association list `List (String × JValue)`
  with map operations mirroring the `serde_json::Map` calls the program
  makes (`contains_key`, `insert`, `remove`).
* Mutating operations (`set`, `delete`) return the message result together
  with the resulting `FileState`; on the error paths the code returns
  before calling `save_json`, so the file state is passed through
  unchanged, and on success `save_json` rewrites the file with the full
  serialized mapping.
-/

namespace Kv

inductive JValue where
  | null : JValue
  | boolean : Bool → JValue
  | num : Int → JValue
  | str : String → JValue
  | arr : List JValue → JValue
  | obj : List (String × JValue) → JValue

inductive KvError where
  | IOError : KvError
  | ParseError : KvError
  | InvalidDataError : String → KvError
  | NotFoundError : String → KvError
  | AlreadyExistsError : String → KvError
deriving DecidableEq

inductive FileState where
  | missing : FileState
  | invalidJson : FileState
  | json : JValue → FileState

def JValue.isObj : JValue → Bool
  | .obj _ => true
  | _ => false

def JValue.isStr : JValue → Bool
  | .str _ => true
  | _ => false

/-- `Map::contains_key`. -/
def mapContains (m : List (String × JValue)) (k : String) : Bool :=
  m.any (fun kv => kv.1 == k)

/-- Lookup in the object, for specification purposes. -/
def mapLookup (m : List (String × JValue)) (k : String) : Option JValue :=
  match m with
  | [] => none
  | kv :: rest => if kv.1 == k then some kv.2 else mapLookup rest k

/-- `Map::remove`: returns the removed value (if any) and the remaining map. -/
def mapRemoveGet (m : List (String × JValue)) (k : String) :
    Option JValue × List (String × JValue) :=
  match m with
  | [] => (none, [])
  | kv :: rest =>
    if kv.1 == k then (some kv.2, rest)
    else
      let r := mapRemoveGet rest k
      (r.1, kv :: r.2)

/-- `Map::insert`: replaces the value of an existing key in place, otherwise
appends the new binding. -/
def mapInsert (m : List (String × JValue)) (k : String) (v : JValue) :
    List (String × JValue) :=
  match m with
  | [] => [(k, v)]
  | kv :: rest => if kv.1 == k then (k, v) :: rest else kv :: mapInsert rest k v

/-- `load_json`: read the file, parse it as JSON, and require a top-level
object.  A read failure is an `IOError`, a syntax failure a `ParseError`,
and a parsed non-object the explicit `InvalidData` error of the source. -/
def load_json (fs : FileState) : Except KvError (List (String × JValue)) :=
  match fs with
  | .missing => .error .IOError
  | .invalidJson => .error .ParseError
  | .json v =>
    match v with
    | .obj m => .ok m
    | _ => .error (.InvalidDataError ("Data in file was not an object."))

/-- `load_json().unwrap_or_default()`: substitute the empty mapping for any
load failure. -/
def loadOrDefault (fs : FileState) : List (String × JValue) :=
  match load_json fs with
  | .ok m => m
  | .error _ => []

/-- `save_json`: serialize the full mapping and overwrite the file.  At the
level of file contents this makes the file parse back to exactly the
written object. -/
def save_json (m : List (String × JValue)) : FileState :=
  .json (.obj m)

/-- The message of a `serde` deserialization failure when a stored JSON
value is read as a string but is not one (`from_value::<String>`). -/
def fromValueErrMsg : String := "invalid type: expected a string"

/-- `from_value::<String>`: succeeds exactly on JSON strings. -/
def from_value_string : JValue → Except KvError String
  | .str s => .ok s
  | _ => .error (.InvalidDataError fromValueErrMsg)

/-- `get`: load the store, remove the requested key (the map is discarded,
only the removed value is used), and read it as a string. -/
def get (fs : FileState) (key : String) : Except KvError String :=
  match load_json fs with
  | .error e => .error e
  | .ok json =>
    match (mapRemoveGet json key).1 with
    | some v => from_value_string v
    | none => .error (.NotFoundError ("Key \"" ++ key ++ "\" not found."))

/-- `set`: load with failure swallowed, refuse an existing key unless
`force`, otherwise insert and save the full mapping.  The second component
is the resulting file state; the error path returns before `save_json`, so
there the file is unchanged. -/
def set (fs : FileState) (key value : String) (force : Bool) :
    Except KvError String × FileState :=
  let json := loadOrDefault fs
  if mapContains json key && !force then
    (.error (.AlreadyExistsError
        ("Key \"" ++ key ++ "\" already present. (Use --force to overwrite.)")),
      fs)
  else
    let json2 := mapInsert json key (.str value)
    (.ok ("Key \"" ++ key ++ "\" set to value \"" ++ value ++ "\"."),
      save_json json2)

/-- `delete`: load (propagating failures), refuse a missing key, otherwise
remove it and save the full mapping.  The second component is the resulting
file state; the error paths return before `save_json`. -/
def delete (fs : FileState) (key : String) : Except KvError String × FileState :=
  match load_json fs with
  | .error e => (.error e, fs)
  | .ok json =>
    if !(mapContains json key) then
      (.error (.NotFoundError ("Key \"" ++ key ++ "\" not found.")), fs)
    else
      (.ok ("Deleted key \"" ++ key ++ "\"."), save_json (mapRemoveGet json key).2)

/-- The body of the formatting loops of `list` and `complete_keys`: format
each entry as `key ++ sep ++ value`, aborting at the first entry whose
value is not a JSON string (the `?` inside the `for` loop). -/
def formatItems (sep : String) : List (String × JValue) → Except KvError (List String)
  | [] => .ok []
  | kv :: rest =>
    match from_value_string kv.2 with
    | .error e => .error e
    | .ok s =>
      match formatItems sep rest with
      | .error e => .error e
      | .ok items => .ok ((kv.1 ++ sep ++ s) :: items)

/-- `list`: load with failure swallowed; report `"No keys found."` on an
empty mapping, otherwise join the formatted `key -> value` lines. -/
def list (fs : FileState) : Except KvError String :=
  let json := loadOrDefault fs
  if json.isEmpty then .ok ("No keys found.")
  else
    match formatItems (" -> ") json with
    | .error e => .error e
    | .ok items => .ok (String.intercalate "\n" items)

/-- `complete_keys`: load (propagating failures) and join the formatted
`key:value` lines. -/
def complete_keys (fs : FileState) : Except KvError String :=
  match load_json fs with
  | .error e => .error e
  | .ok json =>
    match formatItems (":") json with
    | .error e => .error e
    | .ok items => .ok (String.intercalate "\n" items)

/-- Entries whose values are all JSON strings, as an object. -/
def strEntries (m : List (String × String)) : List (String × JValue) :=
  m.map (fun kv => (kv.1, JValue.str kv.2))

/-! ### Helper lemmas about the map operations -/

theorem mapRemoveGet_fst (m : List (String × JValue)) (k : String) :
    (mapRemoveGet m k).1 = mapLookup m k := by
  induction m with
  | nil => rfl
  | cons kv rest ih =>
    simp only [mapRemoveGet, mapLookup]
    by_cases h : kv.1 == k
    · simp [h]
    · simp [h, ih]

theorem mapContains_eq_isSome (m : List (String × JValue)) (k : String) :
    mapContains m k = (mapLookup m k).isSome := by
  induction m with
  | nil => rfl
  | cons kv rest ih =>
    simp only [mapContains, mapLookup, List.any_cons]
    by_cases h : kv.1 == k
    · simp [h]
    · simpa [h, mapContains] using ih

theorem mapLookup_insert_self (m : List (String × JValue)) (k : String) (v : JValue) :
    mapLookup (mapInsert m k v) k = some v := by
  induction m with
  | nil => simp [mapInsert, mapLookup]
  | cons kv rest ih =>
    simp only [mapInsert]
    by_cases h : kv.1 == k
    · simp [h, mapLookup]
    · simp [h, mapLookup, ih]

theorem mapLookup_insert_ne (m : List (String × JValue)) (k k' : String) (v : JValue)
    (h : k' ≠ k) : mapLookup (mapInsert m k v) k' = mapLookup m k' := by
  induction m with
  | nil =>
    have hk : (k == k') = false := by
      simpa using fun hkk => h hkk.symm
    simp [mapInsert, mapLookup, hk]
  | cons kv rest ih =>
    simp only [mapInsert]
    by_cases hh : kv.1 == k
    · have hk : (k == k') = false := by
        simpa using fun hkk => h hkk.symm
      have hv : (kv.1 == k') = false := by
        have : kv.1 = k := by simpa using hh
        simpa [this] using fun hkk => h hkk.symm
      simp [hh, mapLookup, hk, hv]
    · by_cases hv : kv.1 == k'
      · simp [hh, mapLookup, hv]
      · simp [hh, mapLookup, hv, ih]

theorem from_value_string_of_not_str (v : JValue) (h : v.isStr = false) :
    from_value_string v = .error (.InvalidDataError fromValueErrMsg) := by
  cases v <;> simp_all [JValue.isStr, from_value_string]

theorem formatItems_strEntries (sep : String) (m : List (String × String)) :
    formatItems sep (strEntries m) = .ok (m.map (fun kv => kv.1 ++ sep ++ kv.2)) := by
  induction m with
  | nil => rfl
  | cons kv rest ih =>
    simp [strEntries, formatItems, from_value_string] at ih ⊢
    simp [ih]

theorem from_value_string_error_eq (v : JValue) (e : KvError)
    (h : from_value_string v = .error e) : e = .InvalidDataError fromValueErrMsg := by
  cases v <;> simp_all [from_value_string]

theorem formatItems_error_of_mem (sep : String) (m : List (String × JValue))
    (kv : String × JValue) (hmem : kv ∈ m) (hstr : kv.2.isStr = false) :
    formatItems sep m = .error (.InvalidDataError fromValueErrMsg) := by
  induction m with
  | nil => cases hmem
  | cons hd rest ih =>
    rcases List.mem_cons.mp hmem with h | h
    · subst h
      simp [formatItems, from_value_string_of_not_str kv.2 hstr]
    · simp only [formatItems]
      cases hv : from_value_string hd.2 with
      | error e =>
        rw [from_value_string_error_eq hd.2 e hv]
      | ok s => simp [ih h]

/-! ### Claims -/

/-- Claim C1: if the backing store file contains syntactically invalid JSON,
`set(k, v)` (with any force flag) succeeds and the resulting on-disk store
contains exactly the single entry `k -> v`, whereas `get(k')` and
`delete(k')` against that same corrupt file fail with a parse error for
every key `k'`. -/
theorem C1_corrupt_file_behavior (k v k' : String) (force : Bool) :
    set FileState.invalidJson k v force =
      (.ok ("Key \"" ++ k ++ "\" set to value \"" ++ v ++ "\"."),
        FileState.json (.obj [(k, JValue.str v)])) ∧
    get FileState.invalidJson k' = .error .ParseError ∧
    delete FileState.invalidJson k' = (.error .ParseError, FileState.invalidJson) := by
  exact ⟨rfl, rfl, rfl⟩

/-- Claim C2: for every non-empty key `k` and value `v`, starting from an
empty store (including a never-created file), `set(k, v)` followed by
`get(k)` returns exactly `v`. -/
theorem C2_roundtrip (k v : String) (force : Bool) (fs : FileState)
    (_hk : k ≠ "") (hfs : fs = FileState.missing ∨ fs = FileState.json (.obj [])) :
    (set fs k v force).1 = .ok ("Key \"" ++ k ++ "\" set to value \"" ++ v ++ "\".") ∧
    get (set fs k v force).2 k = .ok v := by
  rcases hfs with rfl | rfl <;>
    simp [set, get, loadOrDefault, load_json, mapContains, mapInsert, save_json,
      mapRemoveGet, from_value_string]

theorem C2_roundtrip_witness :
    ("a" : String) ≠ "" ∧
    (set FileState.missing "a" "b" false).1 =
      .ok ("Key \"" ++ "a" ++ "\" set to value \"" ++ "b" ++ "\".") ∧
    get (set FileState.missing "a" "b" false).2 "a" = .ok "b" :=
  ⟨by decide, C2_roundtrip "a" "b" false FileState.missing (by decide) (Or.inl rfl)⟩

/-- Claim C3: for every key `k` already present in the store with value
`v1`, `set(k, v2, force := false)` fails with `AlreadyExistsError` naming
the key, and the on-disk store is unchanged: `k` still maps to `v1` and no
other entry is modified. -/
theorem C3_set_existing_no_force (m : List (String × JValue)) (k v1 v2 : String)
    (h : mapLookup m k = some (JValue.str v1)) :
    set (FileState.json (.obj m)) k v2 false =
      (.error (.AlreadyExistsError
          ("Key \"" ++ k ++ "\" already present. (Use --force to overwrite.)")),
        FileState.json (.obj m)) ∧
    mapLookup m k = some (JValue.str v1) := by
  have hc : mapContains m k = true := by
    rw [mapContains_eq_isSome, h]
    rfl
  exact ⟨by simp [set, loadOrDefault, load_json, hc], h⟩

theorem C3_set_existing_no_force_witness :
    mapLookup [("k", JValue.str "v1")] "k" = some (JValue.str "v1") ∧
    set (FileState.json (.obj [("k", JValue.str "v1")])) "k" "v2" false =
      (.error (.AlreadyExistsError
          ("Key \"" ++ "k" ++ "\" already present. (Use --force to overwrite.)")),
        FileState.json (.obj [("k", JValue.str "v1")])) :=
  ⟨rfl, (C3_set_existing_no_force [("k", JValue.str "v1")] "k" "v1" "v2" rfl).1⟩

/-- Claim C4: for every key `k` absent from a well-formed store, `get(k)`
fails with `NotFoundError` carrying `k` in its message, and `delete(k)`
likewise fails with `NotFoundError` carrying `k` in its message and leaves
the on-disk file unchanged (no save is performed). -/
theorem C4_absent_key_get_delete (m : List (String × JValue)) (k : String)
    (h : mapContains m k = false) :
    get (FileState.json (.obj m)) k =
      .error (.NotFoundError ("Key \"" ++ k ++ "\" not found.")) ∧
    delete (FileState.json (.obj m)) k =
      (.error (.NotFoundError ("Key \"" ++ k ++ "\" not found.")),
        FileState.json (.obj m)) := by
  have hl : mapLookup m k = none := by
    have hiff := mapContains_eq_isSome m k
    rw [h] at hiff
    cases hcase : mapLookup m k with
    | none => rfl
    | some v => rw [hcase] at hiff; simp at hiff
  constructor
  · simp [get, load_json, mapRemoveGet_fst, hl]
  · simp [delete, load_json, h]

theorem C4_absent_key_get_delete_witness :
    mapContains [] "missing" = false ∧
    get (FileState.json (.obj [])) "missing" =
      .error (.NotFoundError ("Key \"" ++ "missing" ++ "\" not found.")) :=
  ⟨rfl, (C4_absent_key_get_delete [] "missing" rfl).1⟩

/-- Claim C5 (counterexample to the stated message): on a top-level
non-object the error message carries a trailing period, so it is not the
string `"Data in file was not an object"` stated by the claim. -/
theorem C5_message_counterexample :
    load_json (FileState.json JValue.null) =
      Except.error (KvError.InvalidDataError "Data in file was not an object.") ∧
    "Data in file was not an object." ≠ "Data in file was not an object" :=
  ⟨rfl, by decide⟩

/-- Claim C5 (amended): load classifies failures as follows: a missing or
unreadable file yields an `IOError`; content that is not syntactically
valid JSON yields a `ParseError`; a successfully parsed document whose
top-level value is not an object yields an `InvalidDataError` with the
message `"Data in file was not an object."` (trailing period included). -/
theorem C5_load_classification (v : JValue) (h : v.isObj = false) :
    load_json FileState.missing = .error .IOError ∧
    load_json FileState.invalidJson = .error .ParseError ∧
    load_json (FileState.json v) =
      .error (.InvalidDataError ("Data in file was not an object.")) := by
  refine ⟨rfl, rfl, ?_⟩
  cases v <;> simp_all [JValue.isObj, load_json]

theorem C5_load_classification_witness :
    (JValue.num 42).isObj = false ∧
    load_json (FileState.json (JValue.num 42)) =
      .error (.InvalidDataError ("Data in file was not an object.")) :=
  ⟨rfl, (C5_load_classification (JValue.num 42) rfl).2.2⟩

/-- Claim C6: on a store with no entries — including when the backing file
does not exist or fails to load — `list()` returns exactly the string
`"No keys found."`; otherwise `list()` returns one line per entry of the
form `key -> value` joined by newlines (in the map's iteration order). -/
theorem C6_list (fs : FileState) (m : List (String × String))
    (hempty : loadOrDefault fs = []) (hne : m ≠ []) :
    list fs = .ok ("No keys found.") ∧
    list (FileState.json (.obj (strEntries m))) =
      .ok (String.intercalate "\n" (m.map (fun kv => kv.1 ++ " -> " ++ kv.2))) := by
  constructor
  · simp [list, hempty]
  · have h1 : loadOrDefault (FileState.json (.obj (strEntries m))) = strEntries m := rfl
    have h2 : (strEntries m).isEmpty = false := by
      cases m with
      | nil => exact absurd rfl hne
      | cons kv rest => rfl
    simp [list, h1, h2, formatItems_strEntries]

theorem C6_list_witness :
    loadOrDefault FileState.missing = [] ∧
    ([("a", "1"), ("b", "2")] : List (String × String)) ≠ [] ∧
    list FileState.missing = .ok ("No keys found.") ∧
    list (FileState.json (.obj (strEntries [("a", "1"), ("b", "2")]))) =
      .ok (String.intercalate "\n" ["a" ++ " -> " ++ "1", "b" ++ " -> " ++ "2"]) := by
  refine ⟨rfl, by simp, ?_, ?_⟩
  · exact (C6_list FileState.missing [("a", "1"), ("b", "2")] rfl (by simp)).1
  · exact (C6_list FileState.missing [("a", "1"), ("b", "2")] rfl (by simp)).2

/-- Claim C7: a successful `set(k, v, force)` rewrites the file with the
complete mapping in which `k` maps to `v` and every other key maps to
exactly the value it had before the operation; no other entry is added,
removed, or changed. -/
theorem C7_set_frame (m : List (String × JValue)) (k v : String) (force : Bool)
    (msg : String) (hok : (set (FileState.json (.obj m)) k v force).1 = .ok msg) :
    (set (FileState.json (.obj m)) k v force).2 =
      FileState.json (.obj (mapInsert m k (JValue.str v))) ∧
    mapLookup (mapInsert m k (JValue.str v)) k = some (JValue.str v) ∧
    ∀ k', k' ≠ k →
      mapLookup (mapInsert m k (JValue.str v)) k' = mapLookup m k' := by
  have hcond : (mapContains m k && !force) = false := by
    cases hc : (mapContains m k && !force) with
    | false => rfl
    | true =>
      exfalso
      have herr : (set (FileState.json (.obj m)) k v force).1 =
          .error (.AlreadyExistsError
            ("Key \"" ++ k ++ "\" already present. (Use --force to overwrite.)")) := by
        simp [set, loadOrDefault, load_json, hc]
      rw [herr] at hok
      exact Except.noConfusion hok
  refine ⟨?_, mapLookup_insert_self m k (JValue.str v),
    fun k' hk' => mapLookup_insert_ne m k k' (JValue.str v) hk'⟩
  simp [set, loadOrDefault, load_json, hcond, save_json]

theorem C7_set_frame_witness :
    (set (FileState.json (.obj [("x", JValue.str "1")])) "a" "b" false).1 =
      .ok ("Key \"" ++ "a" ++ "\" set to value \"" ++ "b" ++ "\".") ∧
    (set (FileState.json (.obj [("x", JValue.str "1")])) "a" "b" false).2 =
      FileState.json (.obj (mapInsert [("x", JValue.str "1")] "a" (JValue.str "b"))) ∧
    mapLookup (mapInsert [("x", JValue.str "1")] "a" (JValue.str "b")) "a" =
      some (JValue.str "b") :=
  ⟨rfl,
    (C7_set_frame [("x", JValue.str "1")] "a" "b" false
      ("Key \"" ++ "a" ++ "\" set to value \"" ++ "b" ++ "\".") rfl).1,
    (C7_set_frame [("x", JValue.str "1")] "a" "b" false
      ("Key \"" ++ "a" ++ "\" set to value \"" ++ "b" ++ "\".") rfl).2.1⟩

/-- Claim C8: if the store file holds a top-level object in which key `k`
maps to a JSON value that is not a string, then `get(k)` fails with a
data/type error (the `serde` deserialization failure) and never returns a
stringified form of the value. -/
theorem C8_get_non_string (m : List (String × JValue)) (k : String) (v : JValue)
    (hl : mapLookup m k = some v) (hs : v.isStr = false) :
    get (FileState.json (.obj m)) k = .error (.InvalidDataError fromValueErrMsg) := by
  simp [get, load_json, mapRemoveGet_fst, hl, from_value_string_of_not_str v hs]

theorem C8_get_non_string_witness :
    mapLookup [("k", JValue.num 42)] "k" = some (JValue.num 42) ∧
    (JValue.num 42).isStr = false ∧
    get (FileState.json (.obj [("k", JValue.num 42)])) "k" =
      .error (.InvalidDataError fromValueErrMsg) :=
  ⟨rfl, rfl, C8_get_non_string [("k", JValue.num 42)] "k" (JValue.num 42) rfl rfl⟩

/-- Claim C9: although `list()` substitutes an empty mapping for any load
failure, it still fails (propagating the type error) whenever the loaded
object contains an entry whose value is not a JSON string; the same holds
for `complete_keys()`.  The failure swallowing covers only the load step,
not the per-value string conversion. -/
theorem C9_list_complete_keys_type_error (m : List (String × JValue))
    (kv : String × JValue) (hmem : kv ∈ m) (hstr : kv.2.isStr = false) :
    list FileState.invalidJson = .ok ("No keys found.") ∧
    list (FileState.json (.obj m)) = .error (.InvalidDataError fromValueErrMsg) ∧
    complete_keys (FileState.json (.obj m)) =
      .error (.InvalidDataError fromValueErrMsg) := by
  have hne : m.isEmpty = false := by
    cases m with
    | nil => cases hmem
    | cons a rest => rfl
  have h1 := formatItems_error_of_mem (" -> ") m kv hmem hstr
  have h2 := formatItems_error_of_mem (":") m kv hmem hstr
  refine ⟨rfl, ?_, ?_⟩
  · simp [list, loadOrDefault, load_json, hne, h1]
  · simp [complete_keys, load_json, h2]

theorem C9_list_complete_keys_type_error_witness :
    (("k", JValue.num 2) ∈ [("k", JValue.num 2)] ∧
      (JValue.num 2).isStr = false) ∧
    list (FileState.json (.obj [("k", JValue.num 2)])) =
      .error (.InvalidDataError fromValueErrMsg) ∧
    complete_keys (FileState.json (.obj [("k", JValue.num 2)])) =
      .error (.InvalidDataError fromValueErrMsg) :=
  ⟨⟨List.mem_singleton.mpr rfl, rfl⟩,
    (C9_list_complete_keys_type_error [("k", JValue.num 2)] ("k", JValue.num 2)
      (List.mem_singleton.mpr rfl) rfl).2.1,
    (C9_list_complete_keys_type_error [("k", JValue.num 2)] ("k", JValue.num 2)
      (List.mem_singleton.mpr rfl) rfl).2.2⟩

/-- Claim C10: the code never checks that a key is non-empty: for the
empty-string key, `set("", v)` succeeds (storing `"" -> v`) and a
subsequent `get("")` returns `v`, exactly as for any other key. -/
theorem C10_empty_key_allowed (v : String) (force : Bool) :
    (set (FileState.json (.obj [])) "" v force).1 =
      .ok ("Key \"" ++ "" ++ "\" set to value \"" ++ v ++ "\".") ∧
    (set (FileState.json (.obj [])) "" v force).2 =
      FileState.json (.obj [("", JValue.str v)]) ∧
    get (set (FileState.json (.obj [])) "" v force).2 "" = .ok v := by
  refine ⟨rfl, rfl, ?_⟩
  simp [set, get, loadOrDefault, load_json, mapContains, mapInsert, save_json,
    mapRemoveGet, from_value_string]

end Kv
